import Mathlib

/-!
Shallow embedding of the two notebook workflows of this repository
(`basic_sagemaker_processing.ipynb` and `tensorflow_BYOM_iris.ipynb`)
and proofs about them.  Effectful steps (file reads, directory creation,
file writes, object-storage listings, deletions) are modelled by explicit
outcome parameters threaded through the translated control flow; string
processing is translated exactly.
-/

namespace BasicProcessing

/-- Splitting a character list at every occurrence of a separator character,
keeping empty fields, exactly as Python's `str.split(sep)` behaves for a
one-character separator: the result always has at least one field. -/
def splitChar (sep : Char) : List Char → List (List Char)
  | [] => [[]]
  | c :: cs =>
    match splitChar sep cs with
    | [] => [[c]]
    | h :: t => if c = sep then [] :: h :: t else (c :: h) :: t

theorem splitChar_ne_nil (sep : Char) (l : List Char) : splitChar sep l ≠ [] := by
  cases l with
  | nil => simp [splitChar]
  | cons c cs =>
    simp only [splitChar]
    rcases h : splitChar sep cs with _ | ⟨a, t⟩
    · simp
    · by_cases hc : c = sep <;> simp [hc]

theorem splitChar_of_not_mem (sep : Char) (l : List Char) (h : sep ∉ l) :
    splitChar sep l = [l] := by
  induction l with
  | nil => rfl
  | cons c cs ih =>
    simp only [List.mem_cons, not_or] at h
    simp only [splitChar, ih h.2]
    have hc : ¬ c = sep := fun hh => h.1 hh.symm
    simp [hc]

/-- Captured-output lines: the source's `str(output).split("\n")`. -/
def pyLines (s : String) : List String :=
  (splitChar '\n' s.data).map (fun cs => String.mk cs)

/-- Space-separated tokens of a line: the source's `line.split(" ")`. -/
def pyTokens (line : String) : List String :=
  (splitChar ' ' line.data).map (fun cs => String.mk cs)

theorem pyTokens_ne_nil (line : String) : pyTokens line ≠ [] := by
  simp only [pyTokens, ne_eq, List.map_eq_nil_iff]
  exact splitChar_ne_nil _ _

/-- Job-name extraction from the captured job log, translated from
`job_name = str(output).split("\n")[1].split(" ")[-1]`:
take the second line, split it on spaces, take the last token.  Indexing
`[1]` into a list with fewer than two elements raises `IndexError` in
Python, modelled as an error value; `[-1]` of a split result never fails
because `str.split` always returns at least one field, so the `getLastD`
default is unreachable. -/
def extractJobName (captured : String) : Except String String :=
  match pyLines captured with
  | _ :: second :: _ => .ok ((pyTokens second).getLastD "")
  | _ => .error "IndexError: list index out of range"

/-- Second line of the captured output, when it exists. -/
def secondLine (s : String) : Option String := (pyLines s).get? 1

theorem mk_data (s : String) : String.mk s.data = s := rfl

theorem pyTokens_of_no_space (line : String) (h : ' ' ∉ line.data) :
    pyTokens line = [line] := by
  simp [pyTokens, splitChar_of_not_mem _ _ h, mk_data]

theorem extractJobName_of_secondLine (s : String) (line2 : String)
    (h : secondLine s = some line2) :
    extractJobName s = .ok ((pyTokens line2).getLastD "") := by
  unfold secondLine at h
  unfold extractJobName
  rcases hl : pyLines s with _ | ⟨a, _ | ⟨b, t⟩⟩
  · rw [hl] at h; simp at h
  · rw [hl] at h; simp at h
  · rw [hl] at h
    simp only [List.get?] at h
    cases h
    rfl

section PreprocessingScript

/-- Shape of the data frame loaded by `preprocessing.py`.  The script's
control flow only observes the frame through its printed shape; the split
itself is modelled at the row-index level in the `SplitModel` section. -/
structure Frame where
  rows : Nat
  cols : Nat
deriving DecidableEq, Repr

/-- Outcomes of the effectful steps of `preprocessing.py`: the read of
`/opt/ml/processing/input/dataset.csv` (which raises when the input path
does not exist), the three `os.makedirs` calls and the three `to_csv`
writes.  An `Except.error` value carries the message of the exception the
corresponding Python call raises. -/
structure Env where
  read : Except String Frame
  mkdirTrain : Except String Unit
  mkdirValidation : Except String Unit
  mkdirTest : Except String Unit
  writeTrain : Except String Unit
  writeValidation : Except String Unit
  writeTest : Except String Unit

/-- Observable result of one run of `preprocessing.py`: the lines printed
to stdout in order, the directories actually created, the partition files
actually written, and the uncaught exception if the run aborted. -/
structure RunResult where
  output : List String
  createdDirs : List String
  writtenFiles : List String
  uncaught : Option String
deriving DecidableEq, Repr

def completionMarker : String := "Completed running the processing job"

/-- First `try` block of `preprocessing.py`: the three `os.makedirs` calls
run in order train, validation, test; the first failure aborts the block,
its exception is printed followed by `"Could not make directories"`, and
the block falls through.  Returns the printed lines and the directories
created. -/
def tryMakedirs (env : Env) : List String × List String :=
  match env.mkdirTrain with
  | .error e => ([e, "Could not make directories"], [])
  | .ok _ =>
    match env.mkdirValidation with
    | .error e => ([e, "Could not make directories"], ["/opt/ml/processing/output/train"])
    | .ok _ =>
      match env.mkdirTest with
      | .error e => ([e, "Could not make directories"],
          ["/opt/ml/processing/output/train", "/opt/ml/processing/output/validation"])
      | .ok _ => (["Successfully created directories"],
          ["/opt/ml/processing/output/train", "/opt/ml/processing/output/validation",
           "/opt/ml/processing/output/test"])

/-- Second `try` block of `preprocessing.py`: the three `to_csv` writes run
in order train, validation, test; the first failure aborts the block,
`"Failed to write the files"` is printed followed by the exception, and the
block falls through.  Returns the printed lines and the files written. -/
def tryWrites (env : Env) : List String × List String :=
  match env.writeTrain with
  | .error e => (["Failed to write the files", e], [])
  | .ok _ =>
    match env.writeValidation with
    | .error e => (["Failed to write the files", e],
        ["/opt/ml/processing/output/train/train.csv"])
    | .ok _ =>
      match env.writeTest with
      | .error e => (["Failed to write the files", e],
          ["/opt/ml/processing/output/train/train.csv",
           "/opt/ml/processing/output/validation/validation.csv"])
      | .ok _ => (["Wrote files successfully"],
          ["/opt/ml/processing/output/train/train.csv",
           "/opt/ml/processing/output/validation/validation.csv",
           "/opt/ml/processing/output/test/test.csv"])

/-- One run of `preprocessing.py`.  The read of the input file is NOT
inside a `try` block in the source: if it raises, nothing has been printed
yet and the exception propagates uncaught, so neither `try` block nor the
final completion marker is reached.  When the read succeeds the script
prints the shape, splits (pure), runs the two `try` blocks and always
reaches the final `print`. -/
def runPreprocessing (env : Env) : RunResult :=
  match env.read with
  | .error e => { output := [], createdDirs := [], writtenFiles := [], uncaught := some e }
  | .ok df =>
    let md := tryMakedirs env
    let wr := tryWrites env
    { output := ("Shape of data is: (" ++ toString df.rows ++ ", " ++ toString df.cols ++ ")")
        :: md.1 ++ wr.1 ++ [completionMarker]
      createdDirs := md.2
      writtenFiles := wr.2
      uncaught := none }

end PreprocessingScript

theorem getLast?_shape (x m : String) (l1 l2 : List String) :
    (x :: l1 ++ l2 ++ [m]).getLast? = some m := by
  rw [show x :: l1 ++ l2 ++ [m] = (x :: l1 ++ l2) ++ [m] by simp]
  exact List.getLast?_concat _

/-- Environment in which the input path does not exist: `pd.read_csv`
raises `FileNotFoundError`; every later step would succeed. -/
def envMissingInput : Env :=
  { read := .error "FileNotFoundError: /opt/ml/processing/input/dataset.csv",
    mkdirTrain := .ok (), mkdirValidation := .ok (), mkdirTest := .ok (),
    writeTrain := .ok (), writeValidation := .ok (), writeTest := .ok () }

/-- Environment in which every step succeeds, on a frame with the
census-income shape. -/
def envAllOk : Env :=
  { read := .ok ⟨199523, 43⟩,
    mkdirTrain := .ok (), mkdirValidation := .ok (), mkdirTest := .ok (),
    writeTrain := .ok (), writeValidation := .ok (), writeTest := .ok () }

/-- C1 (counterexample): on an input path that does not exist the
partitioning script raises an uncaught `FileNotFoundError` before printing
anything, so the completion marker is not the last line of its output — the
claim that the marker is always reached fails for a missing input file. -/
theorem preprocessing_missing_input_cex :
    (runPreprocessing envMissingInput).uncaught =
      some "FileNotFoundError: /opt/ml/processing/input/dataset.csv" ∧
    (runPreprocessing envMissingInput).output.getLast? ≠ some completionMarker := by
  constructor
  · rfl
  · decide

/-- C1 (amended): when the input file exists and loads successfully, the
partitioning script always prints the completion marker as the last line
of its output and raises nothing, whatever the outcomes of the three
directory creations and the three file writes; but when the read of the
input path fails, the read's exception propagates uncaught and the marker
is never printed (the read is not inside either `try` block). -/
theorem preprocessing_marker_amended (env : Env) :
    (∀ df, env.read = .ok df →
      (runPreprocessing env).uncaught = none ∧
      (runPreprocessing env).output.getLast? = some completionMarker) ∧
    (∀ e, env.read = .error e →
      (runPreprocessing env).uncaught = some e ∧
      (runPreprocessing env).output = []) := by
  obtain ⟨r, m1, m2, m3, w1, w2, w3⟩ := env
  constructor
  · rintro df rfl
    refine ⟨rfl, ?_⟩
    show (_ :: (tryMakedirs _).1 ++ (tryWrites _).1 ++ [completionMarker]).getLast? = _
    exact getLast?_shape _ _ _ _
  · rintro e rfl
    exact ⟨rfl, rfl⟩

/-- C1 (witness): the amended theorem applied to the all-successful
environment and to the missing-input environment. -/
theorem preprocessing_marker_amended_witness :
    ((runPreprocessing envAllOk).uncaught = none ∧
      (runPreprocessing envAllOk).output.getLast? = some completionMarker) ∧
    ((runPreprocessing envMissingInput).uncaught =
        some "FileNotFoundError: /opt/ml/processing/input/dataset.csv" ∧
      (runPreprocessing envMissingInput).output = []) :=
  ⟨(preprocessing_marker_amended envAllOk).1 ⟨199523, 43⟩ rfl,
   (preprocessing_marker_amended envMissingInput).2
     "FileNotFoundError: /opt/ml/processing/input/dataset.csv" rfl⟩

/-- C9: in `preprocessing.py` the three directory creations share a single
try block and the three partition writes share another, each attempted in
the fixed order train, validation, test.  If creating the train directory
fails, no directory is created and the outcomes of the validation and test
creations are never consulted; if writing `train.csv` fails, no file is
written and the outcomes of the validation and test writes are never
consulted; and if `train.csv` succeeds but `validation.csv` fails, exactly
the strict prefix `train.csv` of the three outputs is in place while the
script still raises nothing and prints the completion marker last. -/
theorem preprocessing_try_blocks_order (env : Env) (df : Frame) (e : String)
    (hr : env.read = .ok df) :
    (env.mkdirTrain = .error e →
      (runPreprocessing env).createdDirs = [] ∧
      ∀ v t, runPreprocessing { env with mkdirValidation := v, mkdirTest := t } =
        runPreprocessing env) ∧
    (env.writeTrain = .error e →
      (runPreprocessing env).writtenFiles = [] ∧
      ∀ v t, runPreprocessing { env with writeValidation := v, writeTest := t } =
        runPreprocessing env) ∧
    (env.writeTrain = .ok () → env.writeValidation = .error e →
      (runPreprocessing env).writtenFiles = ["/opt/ml/processing/output/train/train.csv"] ∧
      (runPreprocessing env).uncaught = none ∧
      (runPreprocessing env).output.getLast? = some completionMarker) := by
  obtain ⟨r, m1, m2, m3, w1, w2, w3⟩ := env
  simp only [Except.ok.injEq] at hr ⊢
  refine ⟨?_, ?_, ?_⟩
  · rintro rfl
    subst hr
    exact ⟨rfl, fun v t => rfl⟩
  · rintro rfl
    subst hr
    exact ⟨rfl, fun v t => rfl⟩
  · rintro rfl rfl
    subst hr
    refine ⟨rfl, rfl, ?_⟩
    show (_ :: (tryMakedirs _).1 ++ _ ++ [completionMarker]).getLast? = _
    exact getLast?_shape _ _ _ _

/-- C9 (witness): the theorem applied to a concrete environment in which
only the `validation.csv` write fails. -/
theorem preprocessing_try_blocks_order_witness :
    (runPreprocessing
        { read := .ok ⟨100, 3⟩, mkdirTrain := .ok (), mkdirValidation := .ok (),
          mkdirTest := .ok (), writeTrain := .ok (),
          writeValidation := .error "OSError: disk full",
          writeTest := .ok () }).writtenFiles =
      ["/opt/ml/processing/output/train/train.csv"] ∧
    (runPreprocessing
        { read := .ok ⟨100, 3⟩, mkdirTrain := .ok (), mkdirValidation := .ok (),
          mkdirTest := .ok (), writeTrain := .ok (),
          writeValidation := .error "OSError: disk full",
          writeTest := .ok () }).uncaught = none ∧
    (runPreprocessing
        { read := .ok ⟨100, 3⟩, mkdirTrain := .ok (), mkdirValidation := .ok (),
          mkdirTest := .ok (), writeTrain := .ok (),
          writeValidation := .error "OSError: disk full",
          writeTest := .ok () }).output.getLast? = some completionMarker :=
  (preprocessing_try_blocks_order
      { read := .ok ⟨100, 3⟩, mkdirTrain := .ok (), mkdirValidation := .ok (),
        mkdirTest := .ok (), writeTrain := .ok (),
        writeValidation := .error "OSError: disk full", writeTest := .ok () }
      ⟨100, 3⟩ "OSError: disk full" rfl).2.2 rfl rfl

/-- C3 (counterexample): on captured text with fewer than two lines the
extraction fails with Python's generic `IndexError` from the out-of-range
list indexing, not with an explicit "malformed output" error — the error
channel exists but carries no such diagnostic. -/
theorem extractJobName_error_cex :
    extractJobName "ERROR on one single line" =
      .error "IndexError: list index out of range" ∧
    extractJobName "ERROR on one single line" ≠ Except.error "malformed output" := by
  have h1 : extractJobName "ERROR on one single line" =
      .error "IndexError: list index out of range" := rfl
  refine ⟨h1, ?_⟩
  rw [h1]
  intro h
  exact absurd (Except.error.inj h) (by decide)

/-- C3 (amended): job-name extraction takes the second line of the captured
text, splits it on spaces and returns the last token, so for a second line
`"INFO Job name: my-job-123"` it returns `"my-job-123"`; for captured text
with fewer than two lines it fails by raising an index-out-of-range error
(it does not silently return a wrong value), a generic `IndexError` rather
than an explicit "malformed output" diagnostic. -/
theorem extractJobName_amended :
    extractJobName "INFO Starting job run\nINFO Job name: my-job-123\nINFO Done" =
      .ok "my-job-123" ∧
    ∀ s : String, (pyLines s).length < 2 →
      extractJobName s = .error "IndexError: list index out of range" := by
  refine ⟨rfl, ?_⟩
  intro s h
  unfold extractJobName
  rcases hl : pyLines s with _ | ⟨a, _ | ⟨b, t⟩⟩
  · rfl
  · rfl
  · rw [hl] at h
    simp only [List.length_cons] at h
    omega

/-- C3 (witness): the amended theorem's general part applied to a one-line
capture. -/
theorem extractJobName_amended_witness :
    extractJobName "no newline here" = .error "IndexError: list index out of range" :=
  extractJobName_amended.2 "no newline here" (by decide)

/-- C10: for every captured output with at least two lines, extraction
returns a string without raising — the last space-separated token of the
second line; when the second line contains no space it returns that entire
line, and when the second line is empty it returns the empty string, with
no validation of the extracted token. -/
theorem extractJobName_total (s : String) (line2 : String)
    (h : secondLine s = some line2) :
    extractJobName s = .ok ((pyTokens line2).getLastD "") ∧
    (' ' ∉ line2.data → extractJobName s = .ok line2) ∧
    (line2 = "" → extractJobName s = .ok "") := by
  refine ⟨extractJobName_of_secondLine s line2 h, ?_, ?_⟩
  · intro hs
    rw [extractJobName_of_secondLine s line2 h, pyTokens_of_no_space line2 hs]
    rfl
  · rintro rfl
    rw [extractJobName_of_secondLine s "" h]
    rfl

/-- C10 (witness): the theorem applied to a capture whose second line has
no space and to a capture whose second line is empty. -/
theorem extractJobName_total_witness :
    extractJobName "Job started\nmy-job-123" = .ok "my-job-123" ∧
    extractJobName "Job started\n" = .ok "" :=
  ⟨(extractJobName_total "Job started\nmy-job-123" "my-job-123" (by decide)).2.1 (by decide),
   (extractJobName_total "Job started\n" "" (by decide)).2.2 rfl⟩

section CsvRoundTrip

/-- CSV file contents: a list of records, each a list of comma-separated
fields. -/
abbrev Csv := List (List String)

/-- In-memory tabular structure produced by `pd.read_csv` with default
arguments: a header, the data rows, and (implicitly) the default
RangeIndex 0, 1, 2, ... over the data rows. -/
structure PdFrame where
  header : List String
  data : List (List String)
deriving DecidableEq, Repr

/-- Translated from `df = pd.read_csv("census-income.csv")` with default
arguments: the first record of the file is the header and the remaining
records are the data rows.  Pandas raises on a file with no records,
modelled by `none`. -/
def read_csv : Csv → Option PdFrame
  | [] => none
  | h :: rows => some ⟨h, rows⟩

/-- Translated from `df.to_csv("dataset.csv")` with default arguments
(`index=True`, `header=True`): the RangeIndex is written as an extra first
column whose header field is empty and whose field in data row i is the
label i. -/
def to_csv (df : PdFrame) : Csv :=
  ("" :: df.header) :: df.data.enum.map (fun p => toString p.1 :: p.2)

/-- Round trip performed by the download-and-stage step: load
`census-income.csv`, re-save the frame as `dataset.csv`. -/
def resaved (f : Csv) : Option Csv := (read_csv f).map to_csv

/-- C2 (counterexample): re-saving a loaded two-record file is not the
identity — the result has an extra first column holding the row index, so
`dataset.csv` is not an unmodified copy of `census-income.csv`. -/
theorem dataset_resave_cex :
    resaved [["age", "income"], ["25", "50000"]] =
      some [["", "age", "income"], ["0", "25", "50000"]] ∧
    resaved [["age", "income"], ["25", "50000"]] ≠
      some [["age", "income"], ["25", "50000"]] := by
  decide

/-- C2 (amended): the load-and-resave step preserves the header and every
data row in order — stripping the first field of each re-saved record
recovers the original file exactly, and the record count is unchanged —
but it prepends the row index as a new first column (empty header field,
then the labels 0, 1, 2, ...), so one column is added. -/
theorem dataset_resave_amended (f : Csv) (df : PdFrame) (h : read_csv f = some df) :
    (to_csv df).map List.tail = f ∧
    (to_csv df).map List.head? =
      some "" :: (List.range df.data.length).map (fun i => some (toString i)) ∧
    (to_csv df).length = f.length := by
  cases f with
  | nil => simp [read_csv] at h
  | cons hd rows =>
    simp only [read_csv, Option.some.injEq] at h
    subst h
    refine ⟨?_, ?_, ?_⟩
    · simp only [to_csv, List.map_cons, List.tail_cons, List.map_map]
      have hc : (List.tail ∘ fun p : Nat × List String => toString p.1 :: p.2) =
          Prod.snd := by
        funext p; rfl
      rw [hc, List.enum_map_snd]
    · simp only [to_csv, List.map_cons, List.head?_cons, List.map_map]
      have hc : (List.head? ∘ fun p : Nat × List String => toString p.1 :: p.2) =
          (fun i => some (toString i)) ∘ Prod.fst := by
        funext p; rfl
      rw [hc, ← List.map_map, List.enum_map_fst]
    · simp [to_csv, List.enum_length]

/-- C2 (witness): the amended theorem applied to a concrete two-record
file. -/
theorem dataset_resave_amended_witness :
    (to_csv ⟨["age", "income"], [["25", "50000"]]⟩).map List.tail =
      [["age", "income"], ["25", "50000"]] ∧
    (to_csv ⟨["age", "income"], [["25", "50000"]]⟩).map List.head? =
      some "" :: (List.range 1).map (fun i => some (toString i)) ∧
    (to_csv ⟨["age", "income"], [["25", "50000"]]⟩).length = 2 :=
  dataset_resave_amended [["age", "income"], ["25", "50000"]]
    ⟨["age", "income"], [["25", "50000"]]⟩ rfl

end CsvRoundTrip

section OutputVerification

/-- Key prefixes probed by the verification loop:
`job_name + "/output/output-" + str(i) + "/"`. -/
def outputKeyPref (jobName : String) (i : Nat) : String :=
  jobName ++ "/output/output-" ++ toString i ++ "/"

/-- Body of the verification cell over a list of indices, translated from
the loop
`prefix = s3_client.list_objects(Bucket=default_bucket, Prefix=...)["Contents"][0]["Key"]`
followed by `print("s3://" + default_bucket + "/" + prefix)`.
`listObjects` gives the keys listed under a key prefix of the default
bucket; when a listing is empty the boto3 response carries no `"Contents"`
entry, so the subscription raises `KeyError` and the loop aborts.  Returns
the URIs printed, in order, and the uncaught error if one was raised. -/
def verifyLoop (listObjects : String → List String) (jobName bucket : String) :
    List Nat → List String × Option String
  | [] => ([], none)
  | i :: rest =>
    match listObjects (outputKeyPref jobName i) with
    | [] => ([], some "KeyError: Contents")
    | k :: _ =>
      let r := verifyLoop listObjects jobName bucket rest
      (("s3://" ++ bucket ++ "/" ++ k) :: r.1, r.2)

/-- Indices probed by the verification cell: Python's `range(1, 4)`. -/
def verificationIndices : List Nat := List.range' 1 3

/-- Verification step of workflow 1. -/
def verifyOutputs (listObjects : String → List String) (jobName bucket : String) :
    List String × Option String :=
  verifyLoop listObjects jobName bucket verificationIndices

theorem verifyLoop_empty_isSome (listObjects : String → List String)
    (jobName bucket : String) (idx : List Nat)
    (h : ∃ i ∈ idx, listObjects (outputKeyPref jobName i) = []) :
    (verifyLoop listObjects jobName bucket idx).2.isSome := by
  induction idx with
  | nil => simp at h
  | cons i rest ih =>
    obtain ⟨j, hj, hempty⟩ := h
    simp only [verifyLoop]
    rcases hk : listObjects (outputKeyPref jobName i) with _ | ⟨k, ks⟩
    · rfl
    · rcases List.mem_cons.mp hj with rfl | hj'
      · rw [hk] at hempty; cases hempty
      · exact ih ⟨j, hj', hempty⟩

theorem verifyLoop_mem_printed (listObjects : String → List String)
    (jobName bucket : String) (idx : List Nat) (u : String)
    (hu : u ∈ (verifyLoop listObjects jobName bucket idx).1) :
    ∃ i ∈ idx, ∃ k ks, listObjects (outputKeyPref jobName i) = k :: ks ∧
      u = "s3://" ++ bucket ++ "/" ++ k := by
  induction idx with
  | nil => simp [verifyLoop] at hu
  | cons i rest ih =>
    simp only [verifyLoop] at hu
    rcases hk : listObjects (outputKeyPref jobName i) with _ | ⟨k, ks⟩
    · rw [hk] at hu; simp at hu
    · rw [hk] at hu
      simp only [List.mem_cons] at hu
      rcases hu with rfl | hu'
      · exact ⟨i, List.mem_cons_self i rest, k, ks, hk, rfl⟩
      · obtain ⟨j, hj, k', ks', hk', hu''⟩ := ih hu'
        exact ⟨j, List.mem_cons_of_mem i hj, k', ks', hk', hu''⟩

/-- C5: in the verification step, if the object-storage listing under
`<job_name>/output/output-<i>/` is empty for some probed index i, the step
raises an error (the missing `"Contents"` entry) rather than silently
continuing; and every URI it prints comes from the first listed key of a
non-empty listing, so no URI is ever printed for an index whose listing is
empty. -/
theorem verify_outputs_empty_listing (listObjects : String → List String)
    (jobName bucket : String) :
    ((∃ i ∈ verificationIndices, listObjects (outputKeyPref jobName i) = []) →
      (verifyOutputs listObjects jobName bucket).2.isSome) ∧
    (∀ u ∈ (verifyOutputs listObjects jobName bucket).1,
      ∃ i ∈ verificationIndices, ∃ k ks,
        listObjects (outputKeyPref jobName i) = k :: ks ∧
        u = "s3://" ++ bucket ++ "/" ++ k) :=
  ⟨fun h => verifyLoop_empty_isSome listObjects jobName bucket verificationIndices h,
   fun u hu => verifyLoop_mem_printed listObjects jobName bucket verificationIndices u hu⟩

/-- Listing double in which every key prefix is empty. -/
def emptyListing : String → List String := fun _ => []

/-- Listing double in which every key prefix holds one object. -/
def echoListing : String → List String := fun p => [p ++ "part-00000"]

/-- C5 (witness): the theorem applied to an all-empty listing double and to
an all-nonempty listing double. -/
theorem verify_outputs_empty_listing_witness :
    (verifyOutputs emptyListing "myjob" "bkt").2.isSome ∧
    (∃ i ∈ verificationIndices, ∃ k ks,
      echoListing (outputKeyPref "myjob" i) = k :: ks ∧
      "s3://bkt/myjob/output/output-1/part-00000" = "s3://" ++ "bkt" ++ "/" ++ k) :=
  ⟨(verify_outputs_empty_listing emptyListing "myjob" "bkt").1 ⟨1, by decide, rfl⟩,
   (verify_outputs_empty_listing echoListing "myjob" "bkt").2
     "s3://bkt/myjob/output/output-1/part-00000" (by decide)⟩

end OutputVerification

section JobSubmission

/-- Output binding passed to `sklearn_processor.run`: only a container
source path is given, no explicit destination. -/
structure ProcessingOutput where
  source : String
deriving DecidableEq, Repr

/-- Output bindings of the `sklearn_processor.run` call, in declaration
order: train, then validation, then test. -/
def runOutputs : List ProcessingOutput :=
  [⟨"/opt/ml/processing/output/train"⟩,
   ⟨"/opt/ml/processing/output/validation"⟩,
   ⟨"/opt/ml/processing/output/test"⟩]

/-- Modelled from the spec: when no explicit destination is given, the
platform derives one object-storage sub-prefix per output binding in
submission order, namely `output-1`, `output-2`, `output-3`.  Pairs each
derived sub-prefix with the container source path of its binding. -/
def derivedDestinations (outputs : List ProcessingOutput) : List (String × String) :=
  outputs.enum.map (fun p => ("output-" ++ toString (p.1 + 1), p.2.source))

/-- C8: workflow 1 declares exactly three output bindings, in the order
train, validation, test, so the order-derived sub-prefixes `output-1`,
`output-2`, `output-3` correspond to train, validation and test
respectively, and the verification loop probes the indices 1, 2, 3 in that
order. -/
theorem output_binding_order :
    runOutputs =
      [⟨"/opt/ml/processing/output/train"⟩,
       ⟨"/opt/ml/processing/output/validation"⟩,
       ⟨"/opt/ml/processing/output/test"⟩] ∧
    derivedDestinations runOutputs =
      [("output-1", "/opt/ml/processing/output/train"),
       ("output-2", "/opt/ml/processing/output/validation"),
       ("output-3", "/opt/ml/processing/output/test")] ∧
    verificationIndices = [1, 2, 3] :=
  ⟨rfl, rfl, rfl⟩

end JobSubmission

end BasicProcessing

namespace IrisByom

/-- Local working directory contents at the time of the cleanup cell: the
plain files and the directory trees it holds. -/
structure LocalFS where
  files : List String
  dirs : List String
deriving DecidableEq, Repr

/-- Translated from `os.remove(f)`: deletes the named file, raising
`FileNotFoundError` when it is absent. -/
def os_remove (fs : LocalFS) (f : String) : Except String LocalFS :=
  if f ∈ fs.files then .ok { fs with files := fs.files.erase f }
  else .error ("FileNotFoundError: " ++ f)

/-- Translated from `shutil.rmtree(d)`: recursively deletes the named
directory tree, raising `FileNotFoundError` when it is absent. -/
def shutil_rmtree (fs : LocalFS) (d : String) : Except String LocalFS :=
  if d ∈ fs.dirs then .ok { fs with dirs := fs.dirs.erase d }
  else .error ("FileNotFoundError: " ++ d)

/-- File targets of the cleanup cell, in attempt order. -/
def cleanupFiles : List String :=
  ["model.tar.gz", "iris_test.csv", "iris_train.csv", "iris.data"]

/-- Translated from the cleanup cell: four `os.remove` calls in order
`model.tar.gz`, `iris_test.csv`, `iris_train.csv`, `iris.data`, then
`shutil.rmtree("export")`.  No call is inside a `try` block, so the first
failure propagates uncaught and the remaining deletions are not attempted;
the result is the directory state reached when the cell stopped, paired
with the uncaught exception if one was raised. -/
def cleanupRun (fs : LocalFS) : LocalFS × Option String :=
  match os_remove fs "model.tar.gz" with
  | .error e => (fs, some e)
  | .ok fs1 =>
    match os_remove fs1 "iris_test.csv" with
    | .error e => (fs1, some e)
    | .ok fs2 =>
      match os_remove fs2 "iris_train.csv" with
      | .error e => (fs2, some e)
      | .ok fs3 =>
        match os_remove fs3 "iris.data" with
        | .error e => (fs3, some e)
        | .ok fs4 =>
          match shutil_rmtree fs4 "export" with
          | .error e => (fs4, some e)
          | .ok fs5 => (fs5, none)

theorem os_remove_ok (fs : LocalFS) (f : String) (h : f ∈ fs.files) :
    os_remove fs f = .ok ⟨fs.files.erase f, fs.dirs⟩ := by
  simp [os_remove, h]

theorem os_remove_err (fs : LocalFS) (f : String) (h : f ∉ fs.files) :
    os_remove fs f = .error ("FileNotFoundError: " ++ f) := by
  simp [os_remove, h]

theorem shutil_rmtree_ok (fs : LocalFS) (d : String) (h : d ∈ fs.dirs) :
    shutil_rmtree fs d = .ok ⟨fs.files, fs.dirs.erase d⟩ := by
  simp [shutil_rmtree, h]

theorem shutil_rmtree_err (fs : LocalFS) (d : String) (h : d ∉ fs.dirs) :
    shutil_rmtree fs d = .error ("FileNotFoundError: " ++ d) := by
  simp [shutil_rmtree, h]

theorem not_mem_erase_of_not_mem (l : List String) (a x : String) (h : x ∉ l) :
    x ∉ l.erase a :=
  fun hh => h (List.erase_subset a l hh)

/-- C6: workflow 2's cleanup cell deletes exactly the files `model.tar.gz`,
`iris_test.csv`, `iris_train.csv` and `iris.data` and removes the `export`
directory tree, and it does not guard against a missing target: when every
target exists the run finishes with no error and exactly those targets are
gone; when any target is absent the run raises an uncaught
`FileNotFoundError`; and concretely, when `iris_test.csv` is absent the run
stops there, having deleted only `model.tar.gz`, leaving the later targets
and the `export` tree in place. -/
theorem cleanup_unguarded (fs : LocalFS) (hf : fs.files.Nodup) (hd : fs.dirs.Nodup) :
    ((∀ t ∈ cleanupFiles, t ∈ fs.files) → "export" ∈ fs.dirs →
      (cleanupRun fs).2 = none ∧
      (∀ f, f ∈ (cleanupRun fs).1.files ↔ f ∈ fs.files ∧ f ∉ cleanupFiles) ∧
      (∀ d, d ∈ (cleanupRun fs).1.dirs ↔ d ∈ fs.dirs ∧ d ≠ "export")) ∧
    (((∃ t ∈ cleanupFiles, t ∉ fs.files) ∨ "export" ∉ fs.dirs) →
      (cleanupRun fs).2.isSome) ∧
    ("model.tar.gz" ∈ fs.files → "iris_test.csv" ∉ fs.files →
      (cleanupRun fs).2 = some "FileNotFoundError: iris_test.csv" ∧
      (cleanupRun fs).1.files = fs.files.erase "model.tar.gz" ∧
      (cleanupRun fs).1.dirs = fs.dirs) := by
  refine ⟨?_, ?_, ?_⟩
  · intro hall hexp
    have h1 : "model.tar.gz" ∈ fs.files := hall _ (by simp [cleanupFiles])
    have h2 : "iris_test.csv" ∈ fs.files.erase "model.tar.gz" :=
      (List.mem_erase_of_ne (by decide)).mpr (hall _ (by simp [cleanupFiles]))
    have h3 : "iris_train.csv" ∈ (fs.files.erase "model.tar.gz").erase "iris_test.csv" :=
      (List.mem_erase_of_ne (by decide)).mpr
        ((List.mem_erase_of_ne (by decide)).mpr (hall _ (by simp [cleanupFiles])))
    have h4 : "iris.data" ∈
        ((fs.files.erase "model.tar.gz").erase "iris_test.csv").erase "iris_train.csv" :=
      (List.mem_erase_of_ne (by decide)).mpr ((List.mem_erase_of_ne (by decide)).mpr
        ((List.mem_erase_of_ne (by decide)).mpr (hall _ (by simp [cleanupFiles]))))
    have e1 := os_remove_ok fs "model.tar.gz" h1
    have e2 := os_remove_ok ⟨fs.files.erase "model.tar.gz", fs.dirs⟩ "iris_test.csv" h2
    have e3 := os_remove_ok
      ⟨(fs.files.erase "model.tar.gz").erase "iris_test.csv", fs.dirs⟩ "iris_train.csv" h3
    have e4 := os_remove_ok
      ⟨((fs.files.erase "model.tar.gz").erase "iris_test.csv").erase "iris_train.csv",
        fs.dirs⟩ "iris.data" h4
    have e5 := shutil_rmtree_ok
      ⟨(((fs.files.erase "model.tar.gz").erase "iris_test.csv").erase
          "iris_train.csv").erase "iris.data", fs.dirs⟩ "export" hexp
    have hrun : cleanupRun fs =
        (⟨(((fs.files.erase "model.tar.gz").erase "iris_test.csv").erase
            "iris_train.csv").erase "iris.data", fs.dirs.erase "export"⟩, none) := by
      simp [cleanupRun, e1, e2, e3, e4, e5]
    rw [hrun]
    dsimp only
    have n1 := hf.erase "model.tar.gz"
    have n2 := n1.erase "iris_test.csv"
    have n3 := n2.erase "iris_train.csv"
    refine ⟨rfl, ?_, ?_⟩
    · intro f
      rw [List.Nodup.mem_erase_iff n3, List.Nodup.mem_erase_iff n2,
        List.Nodup.mem_erase_iff n1, List.Nodup.mem_erase_iff hf]
      simp only [cleanupFiles, List.mem_cons, List.not_mem_nil, or_false]
      constructor
      · rintro ⟨hd4, hd3, hd2, hd1, hm⟩
        exact ⟨hm, by push_neg; exact ⟨hd1, hd2, hd3, hd4⟩⟩
      · rintro ⟨hm, hne⟩
        push_neg at hne
        exact ⟨hne.2.2.2, hne.2.2.1, hne.2.1, hne.1, hm⟩
    · intro d
      rw [List.Nodup.mem_erase_iff hd]
      exact ⟨fun p => ⟨p.2, p.1⟩, fun p => ⟨p.2, p.1⟩⟩
  · intro h
    by_cases h1 : "model.tar.gz" ∈ fs.files
    · have e1 := os_remove_ok fs "model.tar.gz" h1
      by_cases h2 : "iris_test.csv" ∈ fs.files
      · have h2e : "iris_test.csv" ∈ fs.files.erase "model.tar.gz" :=
          (List.mem_erase_of_ne (by decide)).mpr h2
        have e2 := os_remove_ok ⟨fs.files.erase "model.tar.gz", fs.dirs⟩ "iris_test.csv" h2e
        by_cases h3 : "iris_train.csv" ∈ fs.files
        · have h3e : "iris_train.csv" ∈
              (fs.files.erase "model.tar.gz").erase "iris_test.csv" :=
            (List.mem_erase_of_ne (by decide)).mpr
              ((List.mem_erase_of_ne (by decide)).mpr h3)
          have e3 := os_remove_ok
            ⟨(fs.files.erase "model.tar.gz").erase "iris_test.csv", fs.dirs⟩
            "iris_train.csv" h3e
          by_cases h4 : "iris.data" ∈ fs.files
          · have h4e : "iris.data" ∈
                ((fs.files.erase "model.tar.gz").erase "iris_test.csv").erase
                  "iris_train.csv" :=
              (List.mem_erase_of_ne (by decide)).mpr ((List.mem_erase_of_ne (by decide)).mpr
                ((List.mem_erase_of_ne (by decide)).mpr h4))
            have e4 := os_remove_ok
              ⟨((fs.files.erase "model.tar.gz").erase "iris_test.csv").erase
                  "iris_train.csv", fs.dirs⟩ "iris.data" h4e
            have hexp : "export" ∉ fs.dirs := by
              rcases h with ⟨t, ht, hnt⟩ | hexp
              · simp only [cleanupFiles, List.mem_cons, List.not_mem_nil, or_false] at ht
                rcases ht with rfl | rfl | rfl | rfl <;> contradiction
              · exact hexp
            have e5 := shutil_rmtree_err
              ⟨(((fs.files.erase "model.tar.gz").erase "iris_test.csv").erase
                  "iris_train.csv").erase "iris.data", fs.dirs⟩ "export" hexp
            simp [cleanupRun, e1, e2, e3, e4, e5]
          · have h4e := not_mem_erase_of_not_mem _ "iris_train.csv" _
              (not_mem_erase_of_not_mem _ "iris_test.csv" _
                (not_mem_erase_of_not_mem _ "model.tar.gz" _ h4))
            have e4 := os_remove_err
              ⟨((fs.files.erase "model.tar.gz").erase "iris_test.csv").erase
                  "iris_train.csv", fs.dirs⟩ "iris.data" h4e
            simp [cleanupRun, e1, e2, e3, e4]
        · have h3e := not_mem_erase_of_not_mem _ "iris_test.csv" _
            (not_mem_erase_of_not_mem _ "model.tar.gz" _ h3)
          have e3 := os_remove_err
            ⟨(fs.files.erase "model.tar.gz").erase "iris_test.csv", fs.dirs⟩
            "iris_train.csv" h3e
          simp [cleanupRun, e1, e2, e3]
      · have h2e := not_mem_erase_of_not_mem _ "model.tar.gz" _ h2
        have e2 := os_remove_err ⟨fs.files.erase "model.tar.gz", fs.dirs⟩
          "iris_test.csv" h2e
        simp [cleanupRun, e1, e2]
    · have e1 := os_remove_err fs "model.tar.gz" h1
      simp [cleanupRun, e1]
  · intro h1 h2
    have e1 := os_remove_ok fs "model.tar.gz" h1
    have h2e := not_mem_erase_of_not_mem _ "model.tar.gz" _ h2
    have e2 := os_remove_err ⟨fs.files.erase "model.tar.gz", fs.dirs⟩ "iris_test.csv" h2e
    have hrun : cleanupRun fs =
        (⟨fs.files.erase "model.tar.gz", fs.dirs⟩,
          some ("FileNotFoundError: " ++ "iris_test.csv")) := by
      simp [cleanupRun, e1, e2]
    rw [hrun]
    exact ⟨rfl, rfl, rfl⟩

/-- C6 (witness): the theorem applied to a directory holding every target
plus an unrelated file, and to a directory missing `iris_test.csv`. -/
theorem cleanup_unguarded_witness :
    (cleanupRun ⟨["model.tar.gz", "iris_test.csv", "iris_train.csv", "iris.data",
        "notes.txt"], ["export", "data"]⟩).2 = none ∧
    ((cleanupRun ⟨["model.tar.gz", "iris_train.csv"], ["export"]⟩).2 =
        some "FileNotFoundError: iris_test.csv" ∧
      (cleanupRun ⟨["model.tar.gz", "iris_train.csv"], ["export"]⟩).1.files =
        ["model.tar.gz", "iris_train.csv"].erase "model.tar.gz" ∧
      (cleanupRun ⟨["model.tar.gz", "iris_train.csv"], ["export"]⟩).1.dirs =
        ["export"]) :=
  ⟨((cleanup_unguarded
      ⟨["model.tar.gz", "iris_test.csv", "iris_train.csv", "iris.data", "notes.txt"],
        ["export", "data"]⟩ (by decide) (by decide)).1 (by decide) (by decide)).1,
   (cleanup_unguarded ⟨["model.tar.gz", "iris_train.csv"], ["export"]⟩
      (by decide) (by decide)).2.2 (by decide) (by decide)⟩

section ModelDefinition

/-- Configuration of one Keras `Dense` layer as constructed by the model
cell: unit count, activation, optional L2 kernel-regularization
coefficient, optional layer name. -/
structure Dense where
  units : Nat
  activation : String
  l2Coeff : Option ℚ
  layerName : Option String
deriving DecidableEq, Repr

/-- Compiled Keras model as assembled by `tf.keras.Model` plus
`model.compile`: the input width and name, the dense layers applied in
order, and the compile arguments. -/
structure KerasModel where
  inputWidth : Nat
  inputName : String
  layers : List Dense
  loss : String
  optimizer : String
  metrics : List String
deriving DecidableEq, Repr

/-- Translated from `iris_mlp(metrics)`: a 4-wide `Input`, three hidden
`Dense` layers of 10, 20 and 10 units, each with `"relu"` activation and
L2 kernel regularization 0.001, an output `Dense` layer of 3 units with
`"softmax"` activation and no regularizer, compiled with loss
`"sparse_categorical_crossentropy"`, optimizer `"adam"` and the given
metrics list. -/
def iris_mlp (metrics : List String) : KerasModel :=
  let output_activation := "softmax"
  let loss := "sparse_categorical_crossentropy"
  { inputWidth := 4
    inputName := "input"
    layers :=
      [{ units := 10, activation := "relu", l2Coeff := some (1 / 1000),
         layerName := some "dense_layer1" },
       { units := 20, activation := "relu", l2Coeff := some (1 / 1000),
         layerName := some "dense_layer2" },
       { units := 10, activation := "relu", l2Coeff := some (1 / 1000),
         layerName := some "dense_layer3" },
       { units := 3, activation := output_activation, l2Coeff := none,
         layerName := none }]
    loss := loss
    optimizer := "adam"
    metrics := metrics }

/-- C7: for every list of metric names, `iris_mlp` returns a compiled
classifier with exactly the fixed architecture — 4-wide input, hidden
dense layers of 10, 20 and 10 units with `"relu"` activation and L2
coefficient 0.001 each, a 3-unit `"softmax"` output layer without
regularization, loss `"sparse_categorical_crossentropy"`, optimizer
`"adam"` — and the metrics argument affects only the compiled metrics
list. -/
theorem iris_mlp_architecture (metrics : List String) :
    (iris_mlp metrics).inputWidth = 4 ∧
    (iris_mlp metrics).layers =
      [⟨10, "relu", some (1 / 1000), some "dense_layer1"⟩,
       ⟨20, "relu", some (1 / 1000), some "dense_layer2"⟩,
       ⟨10, "relu", some (1 / 1000), some "dense_layer3"⟩,
       ⟨3, "softmax", none, none⟩] ∧
    (iris_mlp metrics).loss = "sparse_categorical_crossentropy" ∧
    (iris_mlp metrics).optimizer = "adam" ∧
    (iris_mlp metrics).metrics = metrics ∧
    (∀ other : List String,
      { iris_mlp other with metrics := metrics } = iris_mlp metrics) :=
  ⟨rfl, rfl, rfl, rfl, rfl, fun _ => rfl⟩

end ModelDefinition

end IrisByom

namespace BasicProcessing

section SplitModel

/-- Number of rows the test side receives from
`train_test_split(..., test_size=0.2)` on n rows: `ceil(0.2 * n)`. -/
def nTest (n : Nat) : Nat := (n + 4) / 5

/-- Modelled from the library contract of
`sklearn.model_selection.train_test_split(df, test_size=0.2)`, an external
dependency of `preprocessing.py` (not repository code): the call draws an
unseeded random permutation of the data-frame rows, returns the last
`n - ceil(0.2 * n)` rows of the permutation as the train side and the
first `ceil(0.2 * n)` rows as the test side, each row keeping its original
index.  Rows are modelled by their original indices and the permutation is
the explicit argument; theorems quantify over every permutation of the
input rows, covering the unseeded randomness. -/
def train_test_split (shuffled : List Nat) : List Nat × List Nat :=
  (shuffled.drop (nTest shuffled.length), shuffled.take (nTest shuffled.length))

/-- Test partition: second component of the first split of
`preprocessing.py`. -/
def testPart (p1 : List Nat) : List Nat := (train_test_split p1).2

/-- Train pool: first component of the first split, input of the second
split. -/
def trainPool (p1 : List Nat) : List Nat := (train_test_split p1).1

/-- Validation partition: second component of the second split, drawn from
a permutation p2 of the train pool. -/
def validationPart (p2 : List Nat) : List Nat := (train_test_split p2).2

/-- Final train partition: first component of the second split. -/
def trainPart (p2 : List Nat) : List Nat := (train_test_split p2).1

theorem split_pair_perm (p : List Nat) :
    ((train_test_split p).1 ++ (train_test_split p).2).Perm p := by
  rw [show (train_test_split p).1 ++ (train_test_split p).2 =
      p.drop (nTest p.length) ++ p.take (nTest p.length) from rfl]
  have h : (p.drop (nTest p.length) ++ p.take (nTest p.length)).Perm
      (p.take (nTest p.length) ++ p.drop (nTest p.length)) := List.perm_append_comm
  rw [List.take_append_drop] at h
  exact h

theorem split_pair_nodup (p : List Nat) (hp : p.Nodup) :
    (train_test_split p).2.Nodup ∧ (train_test_split p).1.Nodup ∧
      (train_test_split p).2.Disjoint (train_test_split p).1 := by
  have h : (p.take (nTest p.length) ++ p.drop (nTest p.length)).Nodup := by
    rw [List.take_append_drop]; exact hp
  exact List.nodup_append.mp h

end SplitModel

end BasicProcessing

namespace BasicProcessing

/-- C4: for every dataset of N ≥ 10 rows and every pair of row
permutations drawn by the two unseeded `train_test_split` calls of
`preprocessing.py`, the three partitions are pairwise disjoint by original
row index, their union is exactly the full input row set, and their sizes
are the rounding-exact values |test| = ⌈0.2·N⌉,
|validation| = ⌈0.2·(N − |test|)⌉, |train| = N − |test| − |validation|,
which lie within rounding tolerance of 0.2·N, 0.16·N and 0.64·N
respectively. -/
theorem split_three_way (N : Nat) (p1 p2 : List Nat) (hN : 10 ≤ N)
    (h1 : p1.Perm (List.range N)) (h2 : p2.Perm (trainPool p1)) :
    ((trainPart p2 ++ validationPart p2) ++ testPart p1).Perm (List.range N) ∧
    (trainPart p2).Disjoint (validationPart p2) ∧
    (trainPart p2).Disjoint (testPart p1) ∧
    (validationPart p2).Disjoint (testPart p1) ∧
    (testPart p1).length = nTest N ∧
    (validationPart p2).length = nTest (N - nTest N) ∧
    (trainPart p2).length = N - nTest N - nTest (N - nTest N) ∧
    N ≤ 5 * (testPart p1).length ∧ 5 * (testPart p1).length ≤ N + 4 ∧
    4 * N ≤ 25 * (validationPart p2).length + 4 ∧
    25 * (validationPart p2).length ≤ 4 * N + 20 ∧
    16 * N ≤ 25 * (trainPart p2).length + 36 ∧
    25 * (trainPart p2).length ≤ 16 * N := by
  have hlen1 : p1.length = N := by rw [h1.length_eq, List.length_range]
  have htle : nTest N ≤ N := by unfold nTest; omega
  have hpoollen : (trainPool p1).length = N - nTest N := by
    simp only [trainPool, train_test_split, List.length_drop, hlen1]
  have hlen2 : p2.length = N - nTest N := by rw [h2.length_eq, hpoollen]
  have hvle : nTest (N - nTest N) ≤ N - nTest N := by unfold nTest; omega
  have htestlen : (testPart p1).length = nTest N := by
    simp only [testPart, train_test_split, List.length_take, hlen1]
    exact Nat.min_eq_left htle
  have hvallen : (validationPart p2).length = nTest (N - nTest N) := by
    simp only [validationPart, train_test_split, List.length_take, hlen2]
    exact Nat.min_eq_left hvle
  have htrainlen : (trainPart p2).length = N - nTest N - nTest (N - nTest N) := by
    simp only [trainPart, train_test_split, List.length_drop, hlen2]
  have hperm : ((trainPart p2 ++ validationPart p2) ++ testPart p1).Perm (List.range N) := by
    have ha : (trainPart p2 ++ validationPart p2).Perm p2 := split_pair_perm p2
    have hb : (trainPool p1 ++ testPart p1).Perm p1 := split_pair_perm p1
    have hc : ((trainPart p2 ++ validationPart p2) ++ testPart p1).Perm
        (p2 ++ testPart p1) := ha.append_right _
    have hdpc : (p2 ++ testPart p1).Perm (trainPool p1 ++ testPart p1) :=
      h2.append_right _
    exact ((hc.trans hdpc).trans hb).trans h1
  have hnd1 : p1.Nodup := h1.nodup_iff.mpr (List.nodup_range N)
  obtain ⟨ndtest, ndpool, hdisj_test_pool⟩ := split_pair_nodup p1 hnd1
  have hnd2 : p2.Nodup := h2.nodup_iff.mpr ndpool
  obtain ⟨ndval, ndtrain, hdisj_val_train⟩ := split_pair_nodup p2 hnd2
  have hsub_train : trainPart p2 ⊆ trainPool p1 := fun a ha =>
    h2.subset (List.drop_subset _ _ ha)
  have hsub_val : validationPart p2 ⊆ trainPool p1 := fun a ha =>
    h2.subset (List.take_subset _ _ ha)
  refine ⟨hperm, ?_, ?_, ?_, htestlen, hvallen, htrainlen, ?_, ?_, ?_, ?_, ?_, ?_⟩
  · exact fun a hat hav => hdisj_val_train hav hat
  · exact fun a hat hate => hdisj_test_pool hate (hsub_train hat)
  · exact fun a hav hate => hdisj_test_pool hate (hsub_val hav)
  all_goals simp only [htestlen, hvallen, htrainlen]
  all_goals unfold nTest
  all_goals omega

/-- C4 (witness): the theorem applied to a 10-row dataset with the identity
permutations: |test| = 2, |validation| = 2, |train| = 6, and the partitions
reassemble the full index set. -/
theorem split_three_way_witness :
    (testPart (List.range 10)).length = nTest 10 ∧
    (validationPart (trainPool (List.range 10))).length = nTest (10 - nTest 10) ∧
    ((trainPart (trainPool (List.range 10)) ++
        validationPart (trainPool (List.range 10))) ++
      testPart (List.range 10)).Perm (List.range 10) :=
  ⟨(split_three_way 10 (List.range 10) (trainPool (List.range 10)) (by decide)
      (List.Perm.refl _) (List.Perm.refl _)).2.2.2.2.1,
   (split_three_way 10 (List.range 10) (trainPool (List.range 10)) (by decide)
      (List.Perm.refl _) (List.Perm.refl _)).2.2.2.2.2.1,
   (split_three_way 10 (List.range 10) (trainPool (List.range 10)) (by decide)
      (List.Perm.refl _) (List.Perm.refl _)).1⟩

end BasicProcessing
